import Mathlib

/-!
Shallow embedding of the coordinate/geometry subsystem and the mole
lifecycle of the game in `src/main.py` (classes `Corner`, `Edge`, `Box`,
`PixelsPoint`, `PercentagePoint`, `GameObject`, `Velocity`, `Mole`, and the
score-touching parts of `Game`).  Python floats are modelled as rationals;
Python ints as integers.  `random.randint` is modelled by an oracle
function together with its documented contract, and its `ValueError` on an
empty range is modelled by `Option`.
-/

namespace MoleAbuse

/-- The four window corners, `Corner` in main.py (bit pairs). -/
inductive Corner where
  | TOP_LEFT
  | TOP_RIGHT
  | BOTOM_LEFT
  | BOTOM_RIGHT
deriving DecidableEq, Repr

/-- `Corner.value`: the `(x, y)` bit pair of each enum member. -/
def Corner.value : Corner → ℕ × ℕ
  | .TOP_LEFT => (0, 0)
  | .TOP_RIGHT => (1, 0)
  | .BOTOM_LEFT => (0, 1)
  | .BOTOM_RIGHT => (1, 1)

/-- The four window edges, `Edge` in main.py (unit-vector pairs). -/
inductive Edge where
  | TOP
  | BOTTOM
  | LEFT
  | RIGHT
deriving DecidableEq, Repr

/-- `Edge.value`: the unit vector of each enum member. -/
def Edge.value : Edge → ℤ × ℤ
  | .TOP => (0, -1)
  | .BOTTOM => (0, 1)
  | .LEFT => (-1, 0)
  | .RIGHT => (1, 0)

/-- `Box.__init__`: axis-aligned rectangle given by its four scalars. -/
structure Box where
  x1 : ℚ
  y1 : ℚ
  x2 : ℚ
  y2 : ℚ
deriving DecidableEq, Repr

def Box.width (b : Box) : ℚ := b.x2 - b.x1

def Box.height (b : Box) : ℚ := b.y2 - b.y1

def Box.top (b : Box) : ℚ := b.y1

def Box.bottom (b : Box) : ℚ := b.y2

def Box.left (b : Box) : ℚ := b.x1

def Box.right (b : Box) : ℚ := b.x2

/-- `Box.is_inside`: all four edges of `self` lie within `allowed_margin`
of the corresponding edge of `outer_box`. -/
def Box.is_inside (self outer_box : Box) (allowed_margin : ℚ) : Bool :=
  (decide (outer_box.left - self.left ≤ allowed_margin)
      && decide (self.right - outer_box.right ≤ allowed_margin))
    && (decide (outer_box.top - self.top ≤ allowed_margin)
      && decide (self.bottom - outer_box.bottom ≤ allowed_margin))

/-- `Box.intersects_with_point`: inclusive bounds test. -/
def Box.intersects_with_point (self : Box) (coordinates : ℚ × ℚ) : Bool :=
  (decide (self.x1 ≤ coordinates.1) && decide (coordinates.1 ≤ self.x2))
    && (decide (self.y1 ≤ coordinates.2) && decide (coordinates.2 ≤ self.y2))

/-- `Box.is_outside`: separating-axis test — no overlap on at least one axis. -/
def Box.is_outside (self other_box : Box) : Bool :=
  (decide (self.right < other_box.left) || decide (self.left > other_box.right))
    || (decide (self.bottom < other_box.top) || decide (self.top > other_box.bottom))

/-- `Game.window_box`: the box `(0, 0, width, height)` of the current window. -/
def window_box (w h : ℚ) : Box := { x1 := 0, y1 := 0, x2 := w, y2 := h }

/-- `PixelsPoint.__init__`: pixel magnitudes measured from `outer_corner`. -/
structure PixelsPoint where
  x : ℚ
  y : ℚ
  outer_corner : Corner
  self_corner : Option Corner
deriving DecidableEq, Repr

/-- `PixelsPoint.resolve`, with the window dimensions passed explicitly in
place of the `game` handle (`game.window_box().width` / `.height`).  The
Python truthiness test `if multiplier_x` becomes `multiplier_x ≠ 0`. -/
def PixelsPoint.resolve (self : PixelsPoint) (outer_width outer_height : ℚ) : ℚ × ℚ :=
  let multiplier_x := self.outer_corner.value.1
  let multiplier_y := self.outer_corner.value.2
  let base_x_coordinate : ℚ := (multiplier_x : ℚ) * outer_width
  let base_y_coordinate : ℚ := (multiplier_y : ℚ) * outer_height
  let x_offset : ℚ := if multiplier_x ≠ 0 then -self.x else self.x
  let y_offset : ℚ := if multiplier_y ≠ 0 then -self.y else self.y
  (base_x_coordinate + x_offset, base_y_coordinate + y_offset)

/-- `PixelsPoint.move_right` (mutation modelled by returning the new point). -/
def PixelsPoint.move_right (self : PixelsPoint) (pixels : ℚ) : PixelsPoint :=
  let x_corner := self.outer_corner.value.1
  let pixel_movement : ℚ := if x_corner ≠ 0 then -pixels else pixels
  { self with x := self.x + pixel_movement }

/-- `PixelsPoint.move_left`. -/
def PixelsPoint.move_left (self : PixelsPoint) (pixels : ℚ) : PixelsPoint :=
  let x_corner := self.outer_corner.value.1
  let pixel_movement : ℚ := if x_corner ≠ 0 then pixels else -pixels
  { self with x := self.x + pixel_movement }

/-- `PixelsPoint.move_down`. -/
def PixelsPoint.move_down (self : PixelsPoint) (pixels : ℚ) : PixelsPoint :=
  let y_corner := self.outer_corner.value.2
  let pixel_movement : ℚ := if y_corner ≠ 0 then -pixels else pixels
  { self with y := self.y + pixel_movement }

/-- `PixelsPoint.move_up`. -/
def PixelsPoint.move_up (self : PixelsPoint) (pixels : ℚ) : PixelsPoint :=
  let y_corner := self.outer_corner.value.2
  let pixel_movement : ℚ := if y_corner ≠ 0 then pixels else -pixels
  { self with y := self.y + pixel_movement }

/-- `PointSpecifier.calculate_offest_to_corner` [sic], as a function of the
point's `self_corner` (the only field it reads).  `corner_from == corner_to`
in Python is false whenever `corner_from` is `None`. -/
def calculate_offest_to_corner (corner_from : Option Corner)
    (object_width object_height : ℚ) (corner_to : Corner) : ℚ × ℚ :=
  if corner_from = some corner_to then (0, 0)
  else
    match corner_from with
    | none =>
      let x_multiplier : ℚ := if corner_to.value.1 = 1 then 1 else -1
      let y_multiplier : ℚ := if corner_to.value.2 = 1 then 1 else -1
      (object_width / 2 * x_multiplier, object_height / 2 * y_multiplier)
    | some cf =>
      (object_width * ((corner_to.value.1 : ℚ) - (cf.value.1 : ℚ)),
        object_height * ((corner_to.value.2 : ℚ) - (cf.value.2 : ℚ)))

/-- `PercentagePoint.__init__`: window-fraction magnitudes. -/
structure PercentagePoint where
  x : ℚ
  y : ℚ
  outer_corner : Corner
  self_corner : Option Corner
deriving DecidableEq, Repr

/-- `PercentagePoint.resolve`: scale by the window box dimensions, then
delegate to `PixelsPoint.resolve`. -/
def PercentagePoint.resolve (self : PercentagePoint) (w h : ℚ) : ℚ × ℚ :=
  let outer_box := window_box w h
  let x_pixels := self.x * outer_box.width
  let y_pixels := self.y * outer_box.height
  let pixels_point : PixelsPoint :=
    { x := x_pixels, y := y_pixels,
      outer_corner := self.outer_corner, self_corner := self.self_corner }
  pixels_point.resolve w h

/-- `GameObject.closest_window_edge`: distances of the point from the four
window edges, minimised.  Python's `min` over the dict keeps the first key
attaining the minimum in insertion order TOP, BOTTOM, LEFT, RIGHT; the
nested conditionals below implement exactly that tie-break. -/
def closest_window_edge (outer_box : Box) (coords : ℚ × ℚ) : Edge :=
  let dTOP := |outer_box.top - coords.2|
  let dBOTTOM := |outer_box.bottom - coords.2|
  let dLEFT := |outer_box.left - coords.1|
  let dRIGHT := |outer_box.right - coords.1|
  if dTOP ≤ dBOTTOM ∧ dTOP ≤ dLEFT ∧ dTOP ≤ dRIGHT then Edge.TOP
  else if dBOTTOM ≤ dLEFT ∧ dBOTTOM ≤ dRIGHT then Edge.BOTTOM
  else if dLEFT ≤ dRIGHT then Edge.LEFT
  else Edge.RIGHT

/-- `Mole.set_pre_birth_positon` [sic]: move the stored anchor magnitude
just outside the window edge closest to the current position.  Window
dimensions `game_width`/`game_height` and mole extent `width`/`height` are
passed explicitly; the anchor mutation is modelled by returning the new
point. -/
def set_pre_birth_positon (game_width game_height width height : ℚ)
    (position : PixelsPoint) : PixelsPoint :=
  let target_edge :=
    closest_window_edge (window_box game_width game_height)
      (position.resolve game_width game_height)
  match target_edge with
  | Edge.LEFT => { position with x := 0 - width }
  | Edge.RIGHT => { position with x := game_width + width }
  | Edge.TOP => { position with y := 0 - height }
  | Edge.BOTTOM => { position with y := game_height + height }

/-- `Mole.do_birth_animation`: reposition just outside the closest edge,
then shove the velocity toward the negation of the closest edge of the NEW
position (`shove_x(-target_edge_x)`, `shove_y(-target_edge_y)` with
`shove` setting the component to `base_speed * multiplier`).  Returns the
new anchor and the velocity `(x, y)` set at birth. -/
def do_birth_animation (game_width game_height width height base_speed : ℚ)
    (position : PixelsPoint) : PixelsPoint × (ℚ × ℚ) :=
  let position2 := set_pre_birth_positon game_width game_height width height position
  let target_edge :=
    closest_window_edge (window_box game_width game_height)
      (position2.resolve game_width game_height)
  let vx := base_speed * (-(target_edge.value.1 : ℚ))
  let vy := base_speed * (-(target_edge.value.2 : ℚ))
  (position2, (vx, vy))

/-- The base speed the `Mole` constructor passes to `Velocity(self, 20)`. -/
def mole_base_speed : ℚ := 20

/-- The two mutable flags of a `Mole` that the lifecycle claims read. -/
structure MoleFlags where
  alive : Bool
  is_birth_animation : Bool
deriving DecidableEq, Repr

/-- `Mole.handle_whack`: kill the mole and increment the score. -/
def handle_whack (mole : MoleFlags) (score : ℤ) : MoleFlags × ℤ :=
  ({ mole with alive := false }, score + 1)

/-- The `MOUSEBUTTONUP` branch of `Game.on_event`, restricted to one mole:
run `handle_whack` iff the click point is inside the mole's collision box. -/
def on_mouse_button_up (collision_box : Box) (pos : ℚ × ℚ)
    (mole : MoleFlags) (score : ℤ) : MoleFlags × ℤ :=
  if collision_box.intersects_with_point pos then handle_whack mole score
  else (mole, score)

/-- `Mole.check_if_offscreen`: skip while birth-animating; otherwise, if the
collision box is outside the window box, kill the mole and decrement a
positive score. -/
def check_if_offscreen (window collision_box : Box)
    (mole : MoleFlags) (score : ℤ) : MoleFlags × ℤ :=
  if mole.is_birth_animation = true then (mole, score)
  else if !(collision_box.is_outside window) then (mole, score)
  else
    ({ mole with alive := false }, if score > 0 then score - 1 else score)

/-- `Mole.generate_spawn_position`: `random.randint(ceil(margin),
floor(outer_size - margin))`.  The random source is an oracle `rand`;
`randint`'s `ValueError` on an empty range is `none`. -/
def generate_spawn_position (rand : ℤ → ℤ → ℤ)
    (outer_size margin : ℚ) : Option ℤ :=
  let lower_bound : ℤ := ⌈margin⌉
  let upper_bound : ℤ := ⌊outer_size - margin⌋
  if lower_bound ≤ upper_bound then some (rand lower_bound upper_bound)
  else none

/-- The contract of `random.randint`: on a nonempty inclusive range the
result lies within it. -/
def randint_contract (rand : ℤ → ℤ → ℤ) : Prop :=
  ∀ lo hi : ℤ, lo ≤ hi → lo ≤ rand lo hi ∧ rand lo hi ≤ hi

/-- `self.score = 0` at the start of `Game.game_session`. -/
def initial_score : ℤ := 0

/-- One score-touching operation of the mole lifecycle: a pointer-up event
(with collision box and click point) or an offscreen check (with window and
collision boxes). -/
inductive MoleOp where
  | whack (collision_box : Box) (pos : ℚ × ℚ)
  | offscreen (window collision_box : Box)

/-- Run one `MoleOp` on the mole-flags/score state. -/
def run_op (st : MoleFlags × ℤ) (op : MoleOp) : MoleFlags × ℤ :=
  match op with
  | .whack collision_box pos => on_mouse_button_up collision_box pos st.1 st.2
  | .offscreen window collision_box => check_if_offscreen window collision_box st.1 st.2

/-- Specification-side characterization of `Mole.do_birth_animation` for a
mole whose spawn target is the anchor `PixelsPoint(tx, ty)`: the pre-birth
anchor is moved just outside the window edge closest to the target, on that
edge's axis only, and the velocity is `base_speed` times the negation of
the unit vector of the window edge closest to the (already moved) pre-birth
position. -/
def birth_outcome_spec (gw gh w h base tx ty : ℚ) : Prop :=
  (closest_window_edge (window_box gw gh) ((tx, ty) : ℚ × ℚ) = Edge.TOP →
      (do_birth_animation gw gh w h base (PixelsPoint.mk tx ty Corner.TOP_LEFT none)).1 =
        PixelsPoint.mk tx (0 - h) Corner.TOP_LEFT none) ∧
  (closest_window_edge (window_box gw gh) ((tx, ty) : ℚ × ℚ) = Edge.BOTTOM →
      (do_birth_animation gw gh w h base (PixelsPoint.mk tx ty Corner.TOP_LEFT none)).1 =
        PixelsPoint.mk tx (gh + h) Corner.TOP_LEFT none) ∧
  (closest_window_edge (window_box gw gh) ((tx, ty) : ℚ × ℚ) = Edge.LEFT →
      (do_birth_animation gw gh w h base (PixelsPoint.mk tx ty Corner.TOP_LEFT none)).1 =
        PixelsPoint.mk (0 - w) ty Corner.TOP_LEFT none) ∧
  (closest_window_edge (window_box gw gh) ((tx, ty) : ℚ × ℚ) = Edge.RIGHT →
      (do_birth_animation gw gh w h base (PixelsPoint.mk tx ty Corner.TOP_LEFT none)).1 =
        PixelsPoint.mk (gw + w) ty Corner.TOP_LEFT none) ∧
  ((do_birth_animation gw gh w h base (PixelsPoint.mk tx ty Corner.TOP_LEFT none)).2 =
    (base * (-((closest_window_edge (window_box gw gh)
        (((do_birth_animation gw gh w h base
          (PixelsPoint.mk tx ty Corner.TOP_LEFT none)).1).resolve gw gh)).value.1 : ℚ)),
      base * (-((closest_window_edge (window_box gw gh)
        (((do_birth_animation gw gh w h base
          (PixelsPoint.mk tx ty Corner.TOP_LEFT none)).1).resolve gw gh)).value.2 : ℚ))))

/-! ## Helper lemmas -/

/-- Resolving a top-left-anchored pixel point returns its stored magnitudes. -/
theorem resolve_top_left (x y : ℚ) (sc : Option Corner) (w h : ℚ) :
    (PixelsPoint.mk x y Corner.TOP_LEFT sc).resolve w h = (x, y) := by
  simp [PixelsPoint.resolve, Corner.value]

/-- `closest_window_edge` picks TOP when the distance to the top edge is at
most the distances to the other three (ties included: TOP is first in the
dict's insertion order). -/
theorem closest_window_edge_eq_TOP (b : Box) (c : ℚ × ℚ)
    (h1 : |b.top - c.2| ≤ |b.bottom - c.2|) (h2 : |b.top - c.2| ≤ |b.left - c.1|)
    (h3 : |b.top - c.2| ≤ |b.right - c.1|) :
    closest_window_edge b c = Edge.TOP := by
  unfold closest_window_edge
  rw [if_pos ⟨h1, h2, h3⟩]

/-- `closest_window_edge` picks BOTTOM when TOP loses and BOTTOM beats
LEFT and RIGHT. -/
theorem closest_window_edge_eq_BOTTOM (b : Box) (c : ℚ × ℚ)
    (hT : ¬(|b.top - c.2| ≤ |b.bottom - c.2| ∧ |b.top - c.2| ≤ |b.left - c.1| ∧
      |b.top - c.2| ≤ |b.right - c.1|))
    (hB : |b.bottom - c.2| ≤ |b.left - c.1| ∧ |b.bottom - c.2| ≤ |b.right - c.1|) :
    closest_window_edge b c = Edge.BOTTOM := by
  unfold closest_window_edge
  rw [if_neg hT, if_pos hB]

/-- `closest_window_edge` picks LEFT when TOP and BOTTOM lose and LEFT
beats RIGHT (ties included). -/
theorem closest_window_edge_eq_LEFT (b : Box) (c : ℚ × ℚ)
    (hT : ¬(|b.top - c.2| ≤ |b.bottom - c.2| ∧ |b.top - c.2| ≤ |b.left - c.1| ∧
      |b.top - c.2| ≤ |b.right - c.1|))
    (hB : ¬(|b.bottom - c.2| ≤ |b.left - c.1| ∧ |b.bottom - c.2| ≤ |b.right - c.1|))
    (hL : |b.left - c.1| ≤ |b.right - c.1|) :
    closest_window_edge b c = Edge.LEFT := by
  unfold closest_window_edge
  rw [if_neg hT, if_neg hB, if_pos hL]

/-- The closest window edge to the spawn target `(300, 200)` in the 600×400
window, needed for the end-to-end scenario. -/
theorem closest_edge_of_300_200 :
    closest_window_edge (window_box 600 400) (((300 : ℚ)), ((200 : ℚ))) = Edge.TOP := by
  apply closest_window_edge_eq_TOP <;>
    norm_num [window_box, Box.top, Box.bottom, Box.left, Box.right]

/-- The closest window edge to the pre-birth position `(300, -64)` in the
600×400 window. -/
theorem closest_edge_of_300_m64 :
    closest_window_edge (window_box 600 400) (((300 : ℚ)), ((-64 : ℚ))) = Edge.TOP := by
  apply closest_window_edge_eq_TOP <;>
    norm_num [window_box, Box.top, Box.bottom, Box.left, Box.right]

/-! ## Claims -/

/-- Claim C1: in a 600×400 window, for a 64×64 mole whose spawn target is
`(300, 200)`, the four-way distance computation selects the TOP edge by the
tie-break order top/bottom/left/right, the pre-birth anchor stores
`(300, -64)`, and the velocity set at birth is `(0, +20)` (base speed 20,
directed down into the frame). -/
theorem spawn_tie_break_600_400 :
    closest_window_edge (window_box 600 400) (((300 : ℚ)), ((200 : ℚ))) = Edge.TOP ∧
    set_pre_birth_positon 600 400 64 64 (PixelsPoint.mk 300 200 Corner.TOP_LEFT none) =
      PixelsPoint.mk 300 (-64) Corner.TOP_LEFT none ∧
    (do_birth_animation 600 400 64 64 mole_base_speed
        (PixelsPoint.mk 300 200 Corner.TOP_LEFT none)).2 = (0, 20) := by
  have hpre : set_pre_birth_positon 600 400 64 64
      (PixelsPoint.mk 300 200 Corner.TOP_LEFT none) =
      PixelsPoint.mk 300 (-64) Corner.TOP_LEFT none := by
    unfold set_pre_birth_positon
    rw [resolve_top_left]
    simp only [closest_edge_of_300_200]
    norm_num
  refine ⟨closest_edge_of_300_200, hpre, ?_⟩
  simp only [do_birth_animation, hpre, resolve_top_left, closest_edge_of_300_m64,
    mole_base_speed, Edge.value]
  norm_num

/-- Claim C2 (amended): for a spawn target strictly inside the window, the
pre-birth anchor is placed just outside the window edge closest to the
target, on that edge's axis only, and the birth velocity is `base_speed`
times the negation of the unit vector of the window edge closest to the
already-moved pre-birth position (which need not be the target's closest
edge). -/
theorem birth_position_and_velocity (gw gh w h base tx ty : ℚ)
    (hx1 : 0 < tx) (hx2 : tx < gw) (hy1 : 0 < ty) (hy2 : ty < gh) :
    birth_outcome_spec gw gh w h base tx ty := by
  unfold birth_outcome_spec do_birth_animation set_pre_birth_positon
  simp only [resolve_top_left]
  cases he : closest_window_edge (window_box gw gh) ((tx, ty) : ℚ × ℚ) <;>
    simp [he, resolve_top_left]

/-- Witness for C2 at the concrete end-to-end input. -/
theorem birth_position_and_velocity_witness :
    birth_outcome_spec 600 400 64 64 20 300 200 :=
  birth_position_and_velocity 600 400 64 64 20 300 200
    (by norm_num) (by norm_num) (by norm_num) (by norm_num)

/-- Counterexample to claim C2 as stated: for spawn target `(32, 32)` in the
600×400 window (a reachable target for a 64×64 mole), the edge closest to
the target is TOP, but the birth velocity is `(20, 0)`, not `base_speed`
times the negation of TOP's unit vector `(0, 20)`: after the mole is moved
to `(32, -64)`, the recomputed closest edge is LEFT. -/
theorem birth_velocity_edge_mismatch :
    closest_window_edge (window_box 600 400) (((32 : ℚ)), ((32 : ℚ))) = Edge.TOP ∧
    (do_birth_animation 600 400 64 64 mole_base_speed
        (PixelsPoint.mk 32 32 Corner.TOP_LEFT none)).2 ≠
      (mole_base_speed * (-(Edge.TOP.value.1 : ℚ)),
        mole_base_speed * (-(Edge.TOP.value.2 : ℚ))) := by
  have hc1 : closest_window_edge (window_box 600 400) (((32 : ℚ)), ((32 : ℚ))) = Edge.TOP := by
    apply closest_window_edge_eq_TOP <;>
      norm_num [window_box, Box.top, Box.bottom, Box.left, Box.right]
  have hc2 : closest_window_edge (window_box 600 400) (((32 : ℚ)), ((-64 : ℚ))) = Edge.LEFT := by
    apply closest_window_edge_eq_LEFT <;>
      norm_num [window_box, Box.top, Box.bottom, Box.left, Box.right]
  refine ⟨hc1, ?_⟩
  have hpre : set_pre_birth_positon 600 400 64 64
      (PixelsPoint.mk 32 32 Corner.TOP_LEFT none) =
      PixelsPoint.mk 32 (-64) Corner.TOP_LEFT none := by
    unfold set_pre_birth_positon
    rw [resolve_top_left]
    simp only [hc1]
    norm_num
  simp only [do_birth_animation, hpre, resolve_top_left, hc2, mole_base_speed, Edge.value]
  norm_num [Prod.ext_iff]

/-- Claim C3: the offscreen check is a no-op while `is_birth_animation` is
true and while the collision box still overlaps the window; when the box is
fully outside the window it kills the mole (leaving the birth flag alone)
and decrements the score by exactly one when positive, leaving a zero score
at zero. -/
theorem check_if_offscreen_spec (window collision_box : Box)
    (mole : MoleFlags) (score : ℤ) :
    (mole.is_birth_animation = true →
      check_if_offscreen window collision_box mole score = (mole, score)) ∧
    (mole.is_birth_animation = false → collision_box.is_outside window = true →
      (check_if_offscreen window collision_box mole score).1.alive = false ∧
      (check_if_offscreen window collision_box mole score).1.is_birth_animation =
        mole.is_birth_animation ∧
      (0 < score → (check_if_offscreen window collision_box mole score).2 = score - 1) ∧
      (score = 0 → (check_if_offscreen window collision_box mole score).2 = 0)) ∧
    (mole.is_birth_animation = false → collision_box.is_outside window = false →
      check_if_offscreen window collision_box mole score = (mole, score)) := by
  refine ⟨fun hb => ?_, fun hb ho => ?_, fun hb ho => ?_⟩
  · simp [check_if_offscreen, hb]
  · have hr : check_if_offscreen window collision_box mole score =
        ({ mole with alive := false }, if score > 0 then score - 1 else score) := by
      simp [check_if_offscreen, hb, ho]
    rw [hr]
    refine ⟨rfl, rfl, fun hpos => ?_, fun h0 => ?_⟩
    · simp [if_pos hpos]
    · subst h0
      norm_num
  · simp [check_if_offscreen, hb, ho]

/-- Witness for C3: a mole not birth-animating, with a collision box fully
outside the window and a score of 3, ends dead with score 2. -/
theorem check_if_offscreen_spec_witness :
    (check_if_offscreen (Box.mk 0 0 10 10) (Box.mk 20 20 30 30)
      (MoleFlags.mk true false) 3).1.alive = false ∧
    (check_if_offscreen (Box.mk 0 0 10 10) (Box.mk 20 20 30 30)
      (MoleFlags.mk true false) 3).2 = 2 := by
  have ho : (Box.mk 20 20 30 30).is_outside (Box.mk 0 0 10 10) = true := by
    simp only [Box.is_outside, Box.left, Box.right, Box.top, Box.bottom,
      Bool.or_eq_true, decide_eq_true_eq]
    norm_num
  have h := (check_if_offscreen_spec (Box.mk 0 0 10 10) (Box.mk 20 20 30 30)
    (MoleFlags.mk true false) 3).2.1 rfl ho
  refine ⟨h.1, ?_⟩
  rw [h.2.2.1 (by norm_num)]
  norm_num

/-- Claim C4: a pointer-up event whose point lies inside the mole's
collision box (inclusive bounds) kills the mole and increments the score by
exactly one; when the point is not inside, the event changes nothing. -/
theorem mouse_up_whack_spec (collision_box : Box) (pos : ℚ × ℚ)
    (mole : MoleFlags) (score : ℤ) :
    (collision_box.intersects_with_point pos = true →
      on_mouse_button_up collision_box pos mole score =
        (MoleFlags.mk false mole.is_birth_animation, score + 1)) ∧
    (collision_box.intersects_with_point pos = false →
      on_mouse_button_up collision_box pos mole score = (mole, score)) := by
  constructor <;> intro h <;>
    simp [on_mouse_button_up, handle_whack, h]

/-- Witness for C4: a click at (5, 5) inside the box (0,0)–(10,10) kills
the mole and moves the score from 0 to 1. -/
theorem mouse_up_whack_spec_witness :
    on_mouse_button_up (Box.mk 0 0 10 10) (((5 : ℚ)), ((5 : ℚ)))
      (MoleFlags.mk true false) 0 = (MoleFlags.mk false false, 1) := by
  have hin : (Box.mk 0 0 10 10).intersects_with_point (((5 : ℚ)), ((5 : ℚ))) = true := by
    simp only [Box.intersects_with_point, Bool.and_eq_true, decide_eq_true_eq]
    norm_num
  have h := (mouse_up_whack_spec (Box.mk 0 0 10 10) (((5 : ℚ)), ((5 : ℚ)))
    (MoleFlags.mk true false) 0).1 hin
  rw [h]
  norm_num

/-- Claim C5: for every pixel anchor and fixed window dimensions,
`move_right d` changes the resolved x coordinate by exactly `+d` and keeps
the resolved y coordinate, and `move_down d` changes the resolved y
coordinate by exactly `+d` and keeps the resolved x coordinate, whichever
window corner the anchor is measured from. -/
theorem move_right_down_resolve (p : PixelsPoint) (w h d : ℚ) :
    ((p.move_right d).resolve w h).1 = (p.resolve w h).1 + d ∧
    ((p.move_right d).resolve w h).2 = (p.resolve w h).2 ∧
    ((p.move_down d).resolve w h).1 = (p.resolve w h).1 ∧
    ((p.move_down d).resolve w h).2 = (p.resolve w h).2 + d := by
  obtain ⟨x, y, oc, sc⟩ := p
  cases oc <;>
    refine ⟨?_, ?_, ?_, ?_⟩ <;>
    simp [PixelsPoint.resolve, PixelsPoint.move_right, PixelsPoint.move_down,
      Corner.value] <;>
    ring

/-- Claim C6: the corner-to-corner offset is `(0, 0)` for equal corners and
negates componentwise when the two corners are swapped, for all
nonnegative extents. -/
theorem offest_to_corner_antisymm (c1 c2 : Corner) (w h : ℚ)
    (hw : 0 ≤ w) (hh : 0 ≤ h) :
    (c1 = c2 → calculate_offest_to_corner (some c1) w h c2 = (0, 0)) ∧
    (calculate_offest_to_corner (some c1) w h c2).1 =
      -((calculate_offest_to_corner (some c2) w h c1).1) ∧
    (calculate_offest_to_corner (some c1) w h c2).2 =
      -((calculate_offest_to_corner (some c2) w h c1).2) := by
  cases c1 <;> cases c2 <;>
    refine ⟨?_, ?_, ?_⟩ <;>
    simp [calculate_offest_to_corner, Corner.value]

/-- Witness for C6 at corners top-left and bottom-right with extent (3, 4). -/
theorem offest_to_corner_antisymm_witness :
    (Corner.TOP_LEFT = Corner.BOTOM_RIGHT →
      calculate_offest_to_corner (some Corner.TOP_LEFT) 3 4 Corner.BOTOM_RIGHT = (0, 0)) ∧
    (calculate_offest_to_corner (some Corner.TOP_LEFT) 3 4 Corner.BOTOM_RIGHT).1 =
      -((calculate_offest_to_corner (some Corner.BOTOM_RIGHT) 3 4 Corner.TOP_LEFT).1) ∧
    (calculate_offest_to_corner (some Corner.TOP_LEFT) 3 4 Corner.BOTOM_RIGHT).2 =
      -((calculate_offest_to_corner (some Corner.BOTOM_RIGHT) 3 4 Corner.TOP_LEFT).2) :=
  offest_to_corner_antisymm Corner.TOP_LEFT Corner.BOTOM_RIGHT 3 4
    (by norm_num) (by norm_num)

/-- The oracle that always returns the lower bound satisfies `randint`'s
contract. -/
theorem rand_lo_contract : randint_contract (fun lo _ => lo) :=
  fun lo _ hl => ⟨le_refl lo, hl⟩

/-- Claim C7 (amended): spawn-position generation fails loudly (empty
`randint` range) whenever the extent strictly exceeds the window extent on
the axis; and whenever the inclusive range `⌈margin⌉..⌊size - margin⌋` is
nonempty it returns an integer inside that range.  (The range can also be
empty for an extent that does not exceed the window extent, e.g. extent 3
in a window of size 3 — see the counterexample.) -/
theorem generate_spawn_position_spec (rand : ℤ → ℤ → ℤ)
    (hrand : randint_contract rand) (outer_size extent : ℚ) :
    (outer_size < extent →
      generate_spawn_position rand outer_size (extent / 2) = none) ∧
    (⌈extent / 2⌉ ≤ ⌊outer_size - extent / 2⌋ →
      generate_spawn_position rand outer_size (extent / 2) =
        some (rand ⌈extent / 2⌉ ⌊outer_size - extent / 2⌋) ∧
      ⌈extent / 2⌉ ≤ rand ⌈extent / 2⌉ ⌊outer_size - extent / 2⌋ ∧
      rand ⌈extent / 2⌉ ⌊outer_size - extent / 2⌋ ≤ ⌊outer_size - extent / 2⌋) := by
  constructor
  · intro hlt
    have h1 : (outer_size - extent / 2 : ℚ) < extent / 2 := by linarith
    have h2 : ((⌊outer_size - extent / 2⌋ : ℤ) : ℚ) < ((⌈extent / 2⌉ : ℤ) : ℚ) :=
      lt_of_le_of_lt (Int.floor_le _) (lt_of_lt_of_le h1 (Int.le_ceil _))
    have h3 : ¬(⌈extent / 2⌉ ≤ ⌊outer_size - extent / 2⌋) := by
      have : (⌊outer_size - extent / 2⌋ : ℤ) < ⌈extent / 2⌉ := by exact_mod_cast h2
      omega
    simp [generate_spawn_position, h3]
  · intro hle
    exact ⟨by simp [generate_spawn_position, hle], (hrand _ _ hle).1, (hrand _ _ hle).2⟩

/-- Witness for C7: a 700-wide mole cannot spawn in a 400-wide window
(raises), and a 64-wide mole in a 600-wide window gets a position inside
`[32, 568]`. -/
theorem generate_spawn_position_spec_witness :
    generate_spawn_position (fun lo _ => lo) 400 ((700 : ℚ) / 2) = none ∧
    (generate_spawn_position (fun lo _ => lo) 600 ((64 : ℚ) / 2) =
        some ⌈(64 : ℚ) / 2⌉ ∧
      ⌈(64 : ℚ) / 2⌉ ≤ (⌈(64 : ℚ) / 2⌉ : ℤ) ∧
      (⌈(64 : ℚ) / 2⌉ : ℤ) ≤ ⌊(600 : ℚ) - 64 / 2⌋) := by
  constructor
  · exact (generate_spawn_position_spec (fun lo _ => lo) rand_lo_contract 400 700).1
      (by norm_num)
  · exact (generate_spawn_position_spec (fun lo _ => lo) rand_lo_contract 600 64).2
      (by norm_num)

/-- Counterexample to claim C7 as stated: an extent of 3 does not exceed a
window extent of 3, yet the random range `⌈1.5⌉..⌊1.5⌋ = 2..1` is empty and
generation raises instead of returning a value. -/
theorem spawn_range_empty_within_window :
    (3 : ℚ) ≤ 3 ∧
    generate_spawn_position (fun lo _ => lo) 3 ((3 : ℚ) / 2) = none := by
  have hc : (⌈(3 : ℚ) / 2⌉ : ℤ) = 2 := by
    rw [Int.ceil_eq_iff] <;> norm_num
  have hf : (⌊(3 : ℚ) - 3 / 2⌋ : ℤ) = 1 := by norm_num
  have h : ¬((⌈(3 : ℚ) / 2⌉ : ℤ) ≤ ⌊(3 : ℚ) - 3 / 2⌋) := by omega
  exact ⟨le_refl _, by simp [generate_spawn_position, h]⟩

/-- Claim C8: resolving any fraction anchor against the zero-area window
box returns exactly the window box's top-left corner `(left, top) = (0, 0)`
with no arithmetic fault. -/
theorem percentage_resolve_zero_window (fx fy : ℚ) (oc : Corner) (sc : Option Corner) :
    (PercentagePoint.mk fx fy oc sc).resolve 0 0 =
      ((window_box 0 0).left, (window_box 0 0).top) := by
  cases oc <;>
    simp [PercentagePoint.resolve, PixelsPoint.resolve, window_box,
      Box.width, Box.height, Box.left, Box.top, Corner.value]

/-- A single lifecycle operation never takes a nonnegative score negative:
`handle_whack` only increments, and the offscreen penalty only decrements a
strictly positive score. -/
theorem run_op_score_nonneg (st : MoleFlags × ℤ) (op : MoleOp) (h : 0 ≤ st.2) :
    0 ≤ (run_op st op).2 := by
  cases op with
  | whack collision_box pos =>
    simp only [run_op, on_mouse_button_up, handle_whack]
    split
    · simp only []
      omega
    · exact h
  | offscreen window collision_box =>
    simp only [run_op, check_if_offscreen]
    split
    · exact h
    · split
      · exact h
      · simp only []
        split <;> omega

/-- The score stays nonnegative along any sequence of operations. -/
theorem foldl_run_op_nonneg (ops : List MoleOp) :
    ∀ st : MoleFlags × ℤ, 0 ≤ st.2 → 0 ≤ (List.foldl run_op st ops).2 := by
  induction ops with
  | nil => intro st h; simpa using h
  | cons op rest ih => intro st h; exact ih _ (run_op_score_nonneg st op h)

/-- Claim C9: starting from the session's initial score 0, any sequence of
pointer-up hits and offscreen checks leaves the score nonnegative. -/
theorem score_nonneg_invariant (ops : List MoleOp) (mole : MoleFlags) :
    0 ≤ (List.foldl run_op (mole, initial_score) ops).2 :=
  foldl_run_op_nonneg ops (mole, initial_score) (by norm_num [initial_score])

/-- Claim C10: for a well-formed box `A`, containment in `B` (margin 0)
implies the separating-axis test reports overlap — `is_inside` implies not
`is_outside`. -/
theorem is_inside_implies_not_outside (A B : Box)
    (hx : A.x1 ≤ A.x2) (hy : A.y1 ≤ A.y2)
    (h : A.is_inside B 0 = true) : A.is_outside B = false := by
  simp only [Box.is_inside, Box.left, Box.right, Box.top, Box.bottom,
    Bool.and_eq_true, decide_eq_true_eq] at h
  obtain ⟨⟨h1, h2⟩, h3, h4⟩ := h
  simp only [Box.is_outside, Box.left, Box.right, Box.top, Box.bottom,
    Bool.or_eq_false_iff, decide_eq_false_iff_not, not_lt, gt_iff_lt]
  refine ⟨⟨?_, ?_⟩, ?_, ?_⟩ <;> linarith

/-- Witness for C10: the box (1,1)–(2,2) is inside (0,0)–(3,3) and not
outside it. -/
theorem is_inside_implies_not_outside_witness :
    (Box.mk 1 1 2 2).is_outside (Box.mk 0 0 3 3) = false := by
  apply is_inside_implies_not_outside (Box.mk 1 1 2 2) (Box.mk 0 0 3 3)
    (by norm_num) (by norm_num)
  simp only [Box.is_inside, Box.left, Box.right, Box.top, Box.bottom,
    Bool.and_eq_true, decide_eq_true_eq]
  norm_num

end MoleAbuse
